import Mathlib

/-!
Verification of the friendly-telegram userbot core (`friendly-telegram/main.py`).

Each definition below is a shallow embedding of a function or code block of
`main.py`; the line numbers in the doc comments refer to that file.  Machine
behaviour that the claims do not depend on (network transport, the Telethon
wire protocol) is abstracted; everything the claims mention is modelled
faithfully from the source text.
-/

namespace FriendlyTelegram

/-- JSON values, the payloads handled by `json.loads` / `json.dumps` in
`main.py`.  A JSON object is an association list of string keys, mirroring a
Python `dict` (insertion order kept, keys unique). -/
inductive JVal where
  | null
  | bool (b : Bool)
  | num (n : Int)
  | str (s : String)
  | arr (xs : List JVal)
  | obj (kvs : List (String × JVal))

/-- Lookup in a Python `dict` modelled as an association list:
first (and only) binding of the key, `none` when absent. -/
def dictGet : List (String × JVal) → String → Option JVal
  | [], _ => none
  | (k2, v) :: rest, k => if k2 = k then some v else dictGet rest k

/-- Python `dict` item assignment `config[key] = value` (main.py line 93):
replaces the value of an existing key in place, otherwise appends. -/
def dictSet : List (String × JVal) → String → JVal → List (String × JVal)
  | [], k, v => [(k, v)]
  | (k2, v2) :: rest, k, v =>
      if k2 = k then (k2, v) :: rest else (k2, v2) :: dictSet rest k v

/-- Embedding of `get_config_key` (main.py lines 70-78).  The config file
`config.json` is modelled as `Option` of its parsed JSON object: `none` when
the file does not exist (so `open` raises `FileNotFoundError` and the function
returns `False`), otherwise the parsed dict.  `config.get(key, False)` yields
the stored value or Python `False`. -/
def get_config_key (file : Option (List (String × JVal))) (key : String) : JVal :=
  match file with
  | none => JVal.bool false
  | some config => (dictGet config key).getD (JVal.bool false)

/-- Embedding of `save_config_key` (main.py lines 81-99).  A missing file
defaults the dict to `{}` (lines 86-90), the key is assigned (line 93), the
whole dict is written back (lines 96-97) and `True` is returned (line 99).
The result pairs the new file state with the return value. -/
def save_config_key (file : Option (List (String × JVal))) (key : String)
    (value : JVal) : Option (List (String × JVal)) × Bool :=
  let config := file.getD []
  (some (dictSet config key value), true)

/-- Kinds of Telethon events relevant to the handler registrations in
`amain` (main.py lines 575-583). -/
inductive EvKind where
  | newMessage
  | messageEdited
  | chatAction
deriving DecidableEq

/-- An inbound event: its kind, and whether the underlying message is a
forward (the only message property the registered event builders filter on). -/
structure Event where
  kind : EvKind
  forwarded : Bool
deriving DecidableEq

/-- The two dispatcher entry points registered in `amain`. -/
inductive Handler where
  | handle_incoming
  | handle_command
deriving DecidableEq

/-- The four Telethon event builders used at main.py lines 575-583:
`events.NewMessage` (class, default filters: matches every new message,
forwarded or not), `events.ChatAction`, `events.NewMessage(forwards=False)`
(excludes forwarded messages) and `events.MessageEdited()` (matches message
edits only). -/
inductive Builder where
  | anyNewMessage
  | chatActionB
  | newMessageNoForwards
  | messageEditedB
deriving DecidableEq

/-- Telethon semantics of each builder: which events it lets through to its
callback.  `NewMessage` never fires for edits or chat actions; `MessageEdited`
fires only for edits; `forwards=False` drops forwarded messages. -/
def Builder.accepts (b : Builder) (e : Event) : Bool :=
  match b, e.kind with
  | .anyNewMessage, .newMessage => true
  | .anyNewMessage, _ => false
  | .chatActionB, .chatAction => true
  | .chatActionB, _ => false
  | .newMessageNoForwards, .newMessage => !e.forwarded
  | .newMessageNoForwards, _ => false
  | .messageEditedB, .messageEdited => true
  | .messageEditedB, _ => false

/-- The event-handler registrations performed by `amain` when not web-only
(main.py lines 575-583), in source order.  Nothing in `amain` or in
`parse_arguments` conditions these four calls on any edit-re-evaluation
configuration: they are executed unconditionally on this path. -/
def registrations : List (Handler × Builder) :=
  [(.handle_incoming, .anyNewMessage),
   (.handle_incoming, .chatActionB),
   (.handle_command, .newMessageNoForwards),
   (.handle_command, .messageEditedB)]

/-- The handlers an event is delivered to: every registration whose builder
accepts the event, in registration order. -/
def deliveredTo (e : Event) : List Handler :=
  (registrations.filter (fun r => r.2.accepts e)).map Prod.fst

/-- Outcome of `json.loads` on a blob string: a parsed value, or the
`json.decoder.JSONDecodeError` it raises on malformed input. -/
inductive JsonParse where
  | ok (v : JVal)
  | decodeError

/-- Embedding of the setup-path document load of `amain` (main.py lines
502-507).  `download` is the result of `db.do_download()`: `none` models an
absent blob, on which `json.loads(None)` raises `TypeError`; on a present
blob the abstract `parse` function models `json.loads`.  Both exception
types are caught by line 506 and `pdb` becomes `{}`.  The second component
collects the log records emitted by this block: the source performs no
logging call anywhere in lines 500-507, so it is always empty. -/
def setupLoadDoc (download : Option String) (parse : String → JsonParse) :
    JVal × List String :=
  match download with
  | none => (JVal.obj [], [])
  | some s =>
    match parse s with
    | .ok v => (v, [])
    | .decodeError => (JVal.obj [], [])

/-- A Python attribute value on a client object: plain data, or a callable
carrying its `asyncio.iscoroutinefunction` flag, modelled as a function on
JSON-style values. -/
inductive PyVal where
  | data (v : JVal)
  | func (isAsync : Bool) (f : JVal → JVal)

/-- A Python object as `getattr` sees it: a total attribute map. -/
structure PyObj where
  attrs : String → PyVal

/-- Possible results of `SuperList.__getattribute__` (main.py lines
285-307): defer to the built-in `list` attribute; a broadcast function over
all elements; the list of the attribute values of all elements; or the
implicit `None` a fallen-through `for` loop returns on an empty list. -/
inductive AccessResult where
  | builtin
  | broadcastCall (isAsync : Bool) (f : JVal → List (Option JVal))
  | values (vs : List PyVal)
  | noneResult

/-- Calling `getattr(obj, attr)(arg)`: `some` result when the attribute is
callable, `none` models the `TypeError` calling a non-callable would raise. -/
def callAttr (o : PyObj) (attr : String) (arg : JVal) : Option JVal :=
  match o.attrs attr with
  | .func _ f => some (f arg)
  | .data _ => none

/-- A representative finite model of the attribute names for which
`hasattr(list, attr)` holds (main.py line 291). -/
def listBuiltinAttrs : List String :=
  ["append", "extend", "insert", "remove", "pop", "clear",
   "index", "count", "sort", "reverse", "copy"]

/-- Embedding of `SuperList.__getattribute__` (main.py lines 290-307).
Attributes of the built-in `list` type are served by `list` itself (lines
291-292).  Otherwise the `for` loop inspects only the first element, since
every branch of its body returns (lines 294-307): a callable first attribute
yields a broadcast closure calling the attribute on every element in list
order and collecting the results (async variant when the attribute is a
coroutine function); a non-callable one yields the list of the attribute
values of all elements.  An empty list falls through the loop and returns
`None`. -/
def superListGetattr (xs : List PyObj) (attr : String) : AccessResult :=
  if attr ∈ listBuiltinAttrs then .builtin
  else
    match xs with
    | [] => .noneResult
    | x :: _ =>
      match x.attrs attr with
      | .func isAsync _ =>
          .broadcastCall isAsync (fun arg => xs.map (fun o => callAttr o attr arg))
      | .data _ => .values (xs.map (fun o => o.attrs attr))

/-- A Telegram client as far as the scheduling claims need it: its identity. -/
structure TClient where
  phone : String
deriving DecidableEq

/-- One scheduled `amain_wrapper(client, clients, web, arguments)` coroutine
(main.py line 475): bound to one client and given the full client list. -/
structure ScheduledTask where
  client : TClient
  allclients : List TClient
deriving DecidableEq

/-- main.py line 475: one `amain_wrapper` task is built per client; line 476
runs `asyncio.gather` over all of them on the one event loop. -/
def mainLoops (clients : List TClient) : List ScheduledTask :=
  clients.map (fun c => { client := c, allclients := clients })

/-- Dispatcher construction per client (main.py lines 567-569): each `amain`
invocation, when not web-only, constructs a fresh `CommandDispatcher` and
stores it on its own client.  Python object identity of each construction is
modelled by an allocation index, distinct per construction.  When web-only,
no dispatcher is constructed. -/
def assignDispatchers (webOnly : Bool) (clients : List TClient) :
    List (TClient × Option Nat) :=
  if webOnly then clients.map (fun c => (c, none))
  else clients.enum.map (fun p => (p.2, some p.1))

/-- Context dict handed to an asyncio loop exception handler: asyncio always
supplies `message`; the exception object (whose traceback `exc_info` prints)
may be absent, which line 471 handles via `x.get("exception", None)`. -/
structure LoopExcContext where
  message : String
  exception : Option String

/-- What an exception handler does with a context: log an error record (with
the message, and the exception for the traceback), or escalate — the
behaviour that could end the process. -/
inductive ExcAction where
  | logError (msg : String) (exc : Option String)
  | escalate

/-- Embedding of the loop exception handler installed at main.py lines
467-473: `lambda _, x: logging.error("Exception on event loop! %s",
x["message"], exc_info=x.get("exception", None))` — it only logs. -/
def loopExceptionHandler (ctx : LoopExcContext) : ExcAction :=
  .logError ctx.message ctx.exception

/-- Effects of the tail of `main` (lines 467-476). -/
inductive MainEff where
  | setExcHandler
  | gatherRun (taskCount : Nat)
deriving DecidableEq

/-- The tail of `main`: install the loop exception handler (line 467), then
gather and run the per-client wrapper tasks (lines 475-476). -/
def mainTail (clients : List TClient) : List MainEff :=
  [.setExcHandler, .gatherRun (mainLoops clients).length]

/-- Awaited, claim-relevant operations of `amain` (main.py lines 490-639),
used to record its trace. -/
inductive Eff where
  | clientStart
  | dbBackendInit
  | dbDownload
  | registerAllE
  | frontendInit
  | sendConfigE
  | sendReadyE
  | runConfigE
  | deleteChannel
  | dbUpload
  | webAddLoader
  | dispatcherInit
  | addHandler (h : Handler) (b : Builder)
  | badge
  | runUntilDisconnected
  | dbClose
deriving DecidableEq

/-- Python return value of `amain`: `None` (the bare `return` at line 532)
or `False` (lines 539 and 639).  Both are falsy in the `while` condition of
`amain_wrapper`. -/
inductive PyRet where
  | retNone
  | retFalse
deriving DecidableEq

/-- Truthiness of an `amain` return value, as tested by the `while` at
main.py line 486. -/
def PyRet.truthy : PyRet → Bool
  | .retNone => false
  | .retFalse => false

/-- Trace of one `amain` invocation (main.py lines 490-639), projected onto
the claim-relevant awaited operations, with its return value.  `setup` is
`arguments.setup`; `configNone` records whether `run_config` returned `None`
in the setup path (line 530); `webPresent` whether a web object exists
(line 564); `webOnly` is `arguments.web_only`; `first` the wrapper flag. -/
def amainTrace (setup configNone webPresent webOnly first : Bool) :
    List Eff × PyRet :=
  if setup then
    ([Eff.clientStart, Eff.dbBackendInit, Eff.dbDownload, Eff.registerAllE,
      Eff.frontendInit, Eff.sendConfigE, Eff.sendReadyE, Eff.runConfigE]
      ++ (if configNone then [Eff.deleteChannel] else [Eff.dbUpload]),
     if configNone then PyRet.retNone else PyRet.retFalse)
  else
    ([Eff.clientStart, Eff.frontendInit]
      ++ (if webPresent then [Eff.webAddLoader] else [])
      ++ (if webOnly then [] else
           [Eff.dispatcherInit,
            Eff.addHandler .handle_incoming .anyNewMessage,
            Eff.addHandler .handle_incoming .chatActionB,
            Eff.addHandler .handle_command .newMessageNoForwards,
            Eff.addHandler .handle_command .messageEditedB])
      ++ [Eff.registerAllE, Eff.sendConfigE, Eff.sendReadyE]
      ++ (if first then [Eff.badge] else [])
      ++ [Eff.runUntilDisconnected, Eff.dbClose],
     PyRet.retFalse)

/-- The restart loop of `amain_wrapper` (main.py lines 479-487): run `amain`
once, then repeat with `first = False` while the returned value is truthy.
`fuel` bounds the iterations; the result counts the `amain` invocations
performed. -/
def wrapperIters (fuel : Nat) (setup configNone webPresent webOnly first : Bool) :
    Nat :=
  match fuel with
  | 0 => 0
  | fuel2 + 1 =>
    if (amainTrace setup configNone webPresent webOnly first).2.truthy then
      1 + wrapperIters fuel2 setup configNone webPresent webOnly false
    else 1

end FriendlyTelegram

namespace FriendlyTelegram

theorem dictGet_dictSet_self (c : List (String × JVal)) (k : String) (v : JVal) :
    dictGet (dictSet c k v) k = some v := by
  induction c with
  | nil => simp [dictSet, dictGet]
  | cons hd tl ih =>
    obtain ⟨k2, v2⟩ := hd
    by_cases h : k2 = k
    · simp [dictSet, dictGet, h]
    · simp [dictSet, dictGet, h, ih]

theorem dictGet_dictSet_ne (c : List (String × JVal)) (k k2 : String) (v : JVal)
    (h : k2 ≠ k) : dictGet (dictSet c k v) k2 = dictGet c k2 := by
  induction c with
  | nil =>
    have h2 : ¬ k = k2 := fun h3 => h h3.symm
    simp [dictSet, dictGet, h2]
  | cons hd tl ih =>
    obtain ⟨k3, v3⟩ := hd
    by_cases h3 : k3 = k
    · subst h3
      have h4 : ¬ k3 = k2 := fun h5 => h h5.symm
      simp [dictSet, dictGet, h4]
    · simp [dictSet, dictGet, h3, ih]

/-- C10: after `save_config_key key value` succeeds, `get_config_key key`
returns the saved value; every other key keeps its prior value; on a missing
config file `get_config_key` returns `False` for every key and
`save_config_key` starts from the empty config and still succeeds. -/
theorem claimC10_config_roundtrip (file : Option (List (String × JVal)))
    (k : String) (v : JVal) :
    get_config_key (save_config_key file k v).1 k = v
    ∧ (∀ k2, k2 ≠ k →
        get_config_key (save_config_key file k v).1 k2 = get_config_key file k2)
    ∧ (∀ k2, get_config_key none k2 = JVal.bool false)
    ∧ save_config_key none k v = (some (dictSet [] k v), true)
    ∧ (save_config_key file k v).2 = true := by
  refine ⟨?_, ?_, fun k2 => rfl, rfl, rfl⟩
  · cases file <;>
      simp [save_config_key, get_config_key, dictGet_dictSet_self]
  · intro k2 h
    cases file with
    | none =>
      have h2 : ¬ k = k2 := fun h3 => h h3.symm
      simp [save_config_key, get_config_key, dictSet, dictGet, h2]
    | some c =>
      simp [save_config_key, get_config_key, dictGet_dictSet_ne _ _ _ _ h]

/-- Witness for C10 at a concrete config file: saving `use_file_db := true`
over a file holding `port := 8080` round-trips the new key and preserves the
old one. -/
theorem claimC10_config_roundtrip_witness :
    get_config_key
        (save_config_key (some [("port", JVal.num 8080)]) "use_file_db"
          (JVal.bool true)).1 "use_file_db" = JVal.bool true
    ∧ get_config_key
        (save_config_key (some [("port", JVal.num 8080)]) "use_file_db"
          (JVal.bool true)).1 "port"
      = get_config_key (some [("port", JVal.num 8080)]) "port" :=
  ⟨(claimC10_config_roundtrip (some [("port", JVal.num 8080)]) "use_file_db"
      (JVal.bool true)).1,
   (claimC10_config_roundtrip (some [("port", JVal.num 8080)]) "use_file_db"
      (JVal.bool true)).2.1 "port" (by decide)⟩

/-- C2 counterexample: a forwarded new message is a new message, yet it is
not delivered to `handle_command` (the `forwards=False` filter at main.py
line 580 drops it), so the claim that new messages are delivered to both
entry points fails at this concrete event. -/
theorem claimC2_counterexample :
    Handler.handle_incoming ∈ deliveredTo ⟨EvKind.newMessage, true⟩
    ∧ Handler.handle_command ∉ deliveredTo ⟨EvKind.newMessage, true⟩ := by
  decide

/-- C2 amended: chat-action events are delivered only to `handle_incoming`
and never to `handle_command`; non-forwarded new messages are delivered to
both entry points; forwarded new messages are delivered only to
`handle_incoming`. -/
theorem claimC2_entry_points :
    (∀ fwd, deliveredTo ⟨EvKind.chatAction, fwd⟩ = [Handler.handle_incoming])
    ∧ deliveredTo ⟨EvKind.newMessage, false⟩
        = [Handler.handle_incoming, Handler.handle_command]
    ∧ deliveredTo ⟨EvKind.newMessage, true⟩ = [Handler.handle_incoming] := by
  refine ⟨fun fwd => ?_, by decide, by decide⟩
  cases fwd <;> decide

/-- C3 counterexample: `amain` holds no configuration that gates edit
re-dispatch — the registration at main.py line 583 is unconditional — and an
edited message is delivered to `handle_command` all the same, refuting the
claim that without such configuration edits are not re-dispatched. -/
theorem claimC3_counterexample :
    Handler.handle_command ∈ deliveredTo ⟨EvKind.messageEdited, false⟩ := by
  decide

/-- C3 amended: edited messages are always re-dispatched to `handle_command`,
unconditionally; no module-subsystem configuration gates this, as the
registration list is a constant of the non-web-only path. -/
theorem claimC3_edits_always_redispatched :
    ∀ fwd, deliveredTo ⟨EvKind.messageEdited, fwd⟩ = [Handler.handle_command] := by
  intro fwd
  cases fwd <;> decide

/-- C4: an edited-message event is never delivered to `handle_incoming`; the
watcher pass is registered only for new messages and chat actions (main.py
lines 575-577), so watchers are not re-run on edit. -/
theorem claimC4_no_watchers_on_edit :
    ∀ fwd, Handler.handle_incoming ∉ deliveredTo ⟨EvKind.messageEdited, fwd⟩ := by
  intro fwd
  cases fwd <;> decide

/-- C9: a forwarded incoming message is delivered to `handle_incoming` (the
unfiltered `NewMessage` registration at main.py line 575) but never to
`handle_command`, whose `NewMessage` registration carries `forwards=False`
(main.py lines 579-581). -/
theorem claimC9_forwards_never_commands :
    Handler.handle_incoming ∈ deliveredTo ⟨EvKind.newMessage, true⟩
    ∧ Handler.handle_command ∉ deliveredTo ⟨EvKind.newMessage, true⟩
    ∧ deliveredTo ⟨EvKind.newMessage, true⟩ = [Handler.handle_incoming] := by
  decide

/-- C1 counterexample: at the concrete corrupt download (absent blob, so
parsing raises `TypeError`), the setup path does substitute the empty
document, but the log-record list of the block is empty — no warning is
logged, contrary to the claim. -/
theorem claimC1_counterexample :
    setupLoadDoc none (fun _ => JsonParse.decodeError) = (JVal.obj [], [])
    ∧ ¬ (setupLoadDoc none (fun _ => JsonParse.decodeError)).2 ≠ [] :=
  ⟨rfl, fun h => h rfl⟩

/-- C1 amended: when the downloaded blob is absent (`TypeError`) or fails
JSON parsing (`JSONDecodeError`), the setup path of `amain` treats it as the
empty document and continues — the except clause is total, so the exception
never propagates out of `amain` — but it emits no log record: the failure is
swallowed silently, without the logged warning the claim states. -/
theorem claimC1_corrupt_blob_fails_soft (download : Option String)
    (parse : String → JsonParse)
    (h : download = none
      ∨ ∃ s, download = some s ∧ parse s = JsonParse.decodeError) :
    setupLoadDoc download parse = (JVal.obj [], []) := by
  rcases h with h | ⟨s, hs, hp⟩
  · subst h; rfl
  · subst hs
    simp [setupLoadDoc, hp]

/-- Witness for amended C1 at a concrete corrupt input. -/
theorem claimC1_corrupt_blob_fails_soft_witness :
    setupLoadDoc (some "garbage") (fun _ => JsonParse.decodeError)
      = (JVal.obj [], []) :=
  claimC1_corrupt_blob_fails_soft (some "garbage") (fun _ => JsonParse.decodeError)
    (Or.inr ⟨"garbage", rfl, rfl⟩)

/-- C5: on a non-empty `SuperList` and an attribute not defined on the
built-in `list` type, access forwards to the elements: a callable first
attribute yields a broadcast function (carrying the coroutine flag of that
attribute) that calls the attribute on every element in list order and
collects the per-element results; a non-callable first attribute yields the
list of that attribute value of every element. -/
theorem claimC5_superlist_broadcast (x : PyObj) (rest : List PyObj)
    (attr : String) (h : attr ∉ listBuiltinAttrs) :
    (∀ isAsync f, x.attrs attr = PyVal.func isAsync f →
      superListGetattr (x :: rest) attr
        = AccessResult.broadcastCall isAsync
            (fun arg => (x :: rest).map (fun o => callAttr o attr arg)))
    ∧ (∀ v, x.attrs attr = PyVal.data v →
      superListGetattr (x :: rest) attr
        = AccessResult.values ((x :: rest).map (fun o => o.attrs attr))) := by
  constructor
  · intro isAsync f hf
    simp [superListGetattr, h, hf]
  · intro v hv
    simp [superListGetattr, h, hv]

/-- Witness for C5 on a one-element list whose `send_message` attribute is a
plain (non-coroutine) callable. -/
theorem claimC5_superlist_broadcast_witness :
    ("send_message" ∉ listBuiltinAttrs)
    ∧ superListGetattr [⟨fun _ => PyVal.func false id⟩] "send_message"
        = AccessResult.broadcastCall false
            (fun arg =>
              [(⟨fun _ => PyVal.func false id⟩ : PyObj)].map
                (fun o => callAttr o "send_message" arg)) :=
  ⟨by decide,
   (claimC5_superlist_broadcast ⟨fun _ => PyVal.func false id⟩ [] "send_message"
      (by decide)).1 false id rfl⟩

/-- C6: `main` schedules exactly one `amain_wrapper` task per client, each
bound to its own client and all sharing the one client list, and when not
web-only every client is assigned its own freshly constructed dispatcher:
all assignments are present and their identities are pairwise distinct, so
no dispatcher instance is shared between two clients. -/
theorem claimC6_one_dispatcher_per_client (clients : List TClient)
    (webOnly : Bool) (h : webOnly = false) :
    (mainLoops clients).length = clients.length
    ∧ (mainLoops clients).map ScheduledTask.client = clients
    ∧ (∀ t ∈ mainLoops clients, t.allclients = clients)
    ∧ (∀ p ∈ assignDispatchers webOnly clients, p.2.isSome)
    ∧ ((assignDispatchers webOnly clients).map Prod.snd).Nodup := by
  subst h
  refine ⟨by simp [mainLoops], ?_, ?_, ?_, ?_⟩
  · have h1 : (mainLoops clients).map ScheduledTask.client
        = clients.map (ScheduledTask.client ∘ fun c =>
            ({ client := c, allclients := clients } : ScheduledTask)) := by
      rw [mainLoops, List.map_map]
    have h2 : (ScheduledTask.client ∘ fun c =>
        ({ client := c, allclients := clients } : ScheduledTask)) = id := rfl
    rw [h1, h2, List.map_id]
  · intro t ht
    simp only [mainLoops, List.mem_map] at ht
    obtain ⟨c, _, rfl⟩ := ht
    rfl
  · intro p hp
    simp only [assignDispatchers, Bool.false_eq_true, if_false,
      List.mem_map] at hp
    obtain ⟨q, _, rfl⟩ := hp
    rfl
  · have h0 : assignDispatchers false clients
        = clients.enum.map (fun p => (p.2, some p.1)) := rfl
    rw [h0, List.map_map]
    have h1 : (Prod.snd ∘ fun p : Nat × TClient => (p.2, some p.1))
        = some ∘ Prod.fst := rfl
    rw [h1, ← List.map_map]
    exact List.Nodup.map (Option.some_injective _)
      (List.nodup_enum_map_fst clients)

/-- Witness for C6 on a concrete two-client list. -/
theorem claimC6_one_dispatcher_per_client_witness :
    (mainLoops [⟨"111"⟩, ⟨"222"⟩]).length
      = ([⟨"111"⟩, ⟨"222"⟩] : List TClient).length
    ∧ ((assignDispatchers false [⟨"111"⟩, ⟨"222"⟩]).map Prod.snd).Nodup :=
  ⟨(claimC6_one_dispatcher_per_client [⟨"111"⟩, ⟨"222"⟩] false rfl).1,
   (claimC6_one_dispatcher_per_client [⟨"111"⟩, ⟨"222"⟩] false rfl).2.2.2.2⟩

/-- C7: the exception handler `main` installs on the event loop turns every
context into a log record carrying the message and the optional exception
(for the traceback) and never escalates, and it is installed before the
gathered per-client tasks are run, so an unhandled failure raised on the
loop is logged instead of ending the process. -/
theorem claimC7_loop_handler_never_escalates :
    (∀ ctx : LoopExcContext,
      loopExceptionHandler ctx = ExcAction.logError ctx.message ctx.exception
      ∧ loopExceptionHandler ctx ≠ ExcAction.escalate)
    ∧ ∀ clients, mainTail clients
        = [MainEff.setExcHandler, MainEff.gatherRun clients.length] := by
  refine ⟨fun ctx => ⟨rfl, fun h => ExcAction.noConfusion h⟩, fun clients => ?_⟩
  simp [mainTail, mainLoops]

/-- C8: on the non-setup path `amain` returns `False`, its trace awaits
`db.close()` exactly once, that close is the last operation and comes right
after `run_until_disconnected` returns, and — the return value being falsy —
the `amain_wrapper` restart loop performs exactly one `amain` invocation and
terminates. -/
theorem claimC8_close_once_then_stop
    (setup configNone webPresent webOnly first : Bool) (fuel : Nat)
    (hs : setup = false) :
    (amainTrace setup configNone webPresent webOnly first).2 = PyRet.retFalse
    ∧ ((amainTrace setup configNone webPresent webOnly first).1).count
        Eff.dbClose = 1
    ∧ ((amainTrace setup configNone webPresent webOnly first).1).reverse.take 2
        = [Eff.dbClose, Eff.runUntilDisconnected]
    ∧ wrapperIters (fuel + 1) setup configNone webPresent webOnly first = 1 := by
  subst hs
  cases configNone <;> cases webPresent <;> cases webOnly <;> cases first <;>
    exact ⟨rfl, by decide, by decide,
      by simp [wrapperIters, amainTrace, PyRet.truthy]⟩

/-- Witness for C8 at concrete flags (non-setup, no web, first run). -/
theorem claimC8_close_once_then_stop_witness :
    (amainTrace false false false false true).2 = PyRet.retFalse
    ∧ wrapperIters 1 false false false false true = 1 :=
  ⟨(claimC8_close_once_then_stop false false false false true 0 rfl).1,
   (claimC8_close_once_then_stop false false false false true 0 rfl).2.2.2⟩

end FriendlyTelegram
